import Mathlib

/-!
Shallow embedding of the Firstbeat → Smartabase synchronisation pipeline
(src/firstbeat_api.py, src/teamworks_api.py) and proofs of the spec's
testable properties over it.

Conventions of the embedding:
* Python values stored in dicts / pandas cells are modelled by `Value`
  (`vStr`, `vInt`, `vNone` for Python `None`/NaN); `Value.toStr` models
  Python `str(...)` on those values.
* A pandas row / Python dict is an association list `Row`; `Row.pyGet`
  models `row.get(key, default)` and `Row.idx` models `row[key]` (the
  KeyError case of `row[key]` is collapsed to `vNone`, which never arises
  on the paths the theorems take).
* HTTP traffic is modelled by an oracle `Nat → ReqOutcome` giving the
  outcome of the i-th request a function issues; `time.sleep` calls are
  recorded in a trace instead of being executed; `print` output is
  recorded in a `log` list.
* `datetime.strftime` formatting is passed in as an opaque parameter of
  the session builder (no claim depends on calendar formatting).
-/

/-- Digit-string evaluation: `some` of the value when every character is
a decimal digit (at least one), else `none`. -/
def digitsVal (acc : Nat) : List Char → Option Nat
  | [] => some acc
  | c :: cs =>
    if '0' ≤ c ∧ c ≤ '9' then digitsVal (acc * 10 + (c.toNat - '0'.toNat)) cs
    else none

/-- Python `int(s)` on a string: an optional sign followed by digits gives
the integer, anything else raises `ValueError` (`none` here). -/
def pyParseInt (s : String) : Option Int :=
  match s.data with
  | [] => none
  | '-' :: cs => if cs = [] then none else (digitsVal 0 cs).map (fun n => -(n : Int))
  | '+' :: cs => if cs = [] then none else (digitsVal 0 cs).map (fun n => (n : Int))
  | cs => (digitsVal 0 cs).map (fun n => (n : Int))

/-- A Python scalar value as stored in the rows this pipeline builds:
a string, an integer, or `None` (also standing for pandas NaN). -/
inductive Value where
  | vStr : String → Value
  | vInt : Int → Value
  | vNone : Value
deriving DecidableEq, Repr

/-- Python `str(...)` on a `Value` (`str(None) = "None"`). -/
def Value.toStr : Value → String
  | .vStr s => s
  | .vInt n => toString n
  | .vNone => "None"

/-- Python `int(...)` on a `Value`; the cases where Python would raise
are collapsed to 0 (they never arise on the proved paths). -/
def Value.toIntVal : Value → Int
  | .vStr s => (pyParseInt s).getD 0
  | .vInt n => n
  | .vNone => 0

/-- A pandas row / session dict: an association list from column name to value. -/
abbrev Row : Type := List (String × Value)

/-- Association lookup, first entry wins (how this file reads Python dicts
and pandas rows). -/
def alookup {A B : Type} [DecidableEq A] : List (A × B) → A → Option B
  | [], _ => none
  | (k2, v) :: rest, k => if k = k2 then some v else alookup rest k

/-- `row.get(key, default)` on a row whose labels are unique
(pandas Series labels are unique; association lookup takes the first hit). -/
def Row.pyGet (r : Row) (k : String) (d : Value) : Value :=
  (alookup r k).getD d

/-- `row[key]`; an absent key (KeyError in Python) is collapsed to `vNone`. -/
def Row.idx (r : Row) (k : String) : Value :=
  (alookup r k).getD .vNone

/-- Dict/column assignment `row[k] = v`: replaces any existing entry for `k`. -/
def Row.setCell (r : Row) (k : String) (v : Value) : Row :=
  (r.filter fun p => p.1 ≠ k) ++ [(k, v)]

/-- A pandas DataFrame: column labels plus a list of rows. -/
structure DataFrame where
  cols : List String
  rows : List Row
deriving DecidableEq, Repr

/-- `df.empty` (no claim exercises the zero-column corner of pandas `empty`). -/
def DataFrame.isEmptyDf (df : DataFrame) : Bool :=
  df.rows.isEmpty

/-! ## Variable extraction (src/firstbeat_api.py lines 214–229) -/

/-- One entry of the detail response's `variables` array; `name`/`value`
are read with `.get`, hence the `Option` on the name and `vNone` for a
missing value. -/
structure VarEntry where
  name : Option String
  value : Value
deriving DecidableEq, Repr

/-- The dict comprehension `{v.get("name"): v.get("value") for v in vars}`:
the value associated to name `n`, later entries overwriting earlier ones. -/
def lookupByName (vars : List VarEntry) (n : String) : Option Value :=
  vars.foldl (fun acc e => if e.name = some n then some e.value else acc) none

/-- `variables.get(n, d)` on the comprehension-built dict. -/
def varLookup (vars : List VarEntry) (n : String) (d : Value) : Value :=
  (lookupByName vars n).getD d

/-- The eleven per-measurement fields the script extracts by name. -/
structure ExtractedVars where
  rmssd : Value
  acwr : Value
  hrAvg : Value
  hrPeak : Value
  trimp : Value
  movementLoad : Value
  zone1 : Value
  zone2 : Value
  zone3 : Value
  zone4 : Value
  zone5 : Value
deriving DecidableEq, Repr

/-- Lines 219–229 of src/firstbeat_api.py: name-keyed lookups with
default `""` for the scalar metrics and `0` for the zone durations. -/
def extractVariables (vars : List VarEntry) : ExtractedVars where
  rmssd := varLookup vars "rmssd" (.vStr "")
  acwr := varLookup vars "acwr" (.vStr "")
  hrAvg := varLookup vars "heartRateAverage" (.vStr "")
  hrPeak := varLookup vars "heartRatePeak" (.vStr "")
  trimp := varLookup vars "trimp" (.vStr "")
  movementLoad := varLookup vars "movementLoad" (.vStr "")
  zone1 := varLookup vars "zone1Time" (.vInt 0)
  zone2 := varLookup vars "zone2Time" (.vInt 0)
  zone3 := varLookup vars "zone3Time" (.vInt 0)
  zone4 := varLookup vars "zone4Time" (.vInt 0)
  zone5 := varLookup vars "zone5Time" (.vInt 0)

/-! ## Session construction (src/firstbeat_api.py lines 231–254) -/

/-- The composite dedup id, line 240: the f-string `{measurement_id}-{athlete}`. -/
def compositeId (measurementId : String) (athleteId : Nat) : String :=
  measurementId ++ "-" ++ toString athleteId

/-- The fields of a measurement-detail response the session builder reads.
Timestamps are epoch seconds of the already-parsed naive datetimes. -/
structure MeasurementDetail where
  startTime : Int
  endTime : Int
  measurementType : Value
  varEntries : List VarEntry
deriving DecidableEq, Repr

/-- Python `s.split()[i]` restricted to the two-word names the roster builds. -/
def nameWord (s : String) (i : Nat) : String :=
  ((s.splitOn " ").drop i).headD ""

/-- The `session` dict of lines 231–253.  `fmtDate`/`fmtTime` are the opaque
`strftime("%d/%m/%Y")` and 12-hour formatters applied to an epoch second.
Note the dict has no "Duration" key. -/
def buildSession (fmtDate fmtTime : Int → String) (measurementId : String)
    (athleteId : Nat) (athleteName : String) (resp : MeasurementDetail) : Row :=
  let ex := extractVariables resp.varEntries
  [("start_date", .vStr (fmtDate resp.startTime)),
   ("start_time", .vStr (fmtTime resp.startTime)),
   ("end_date", .vStr (fmtDate resp.endTime)),
   ("end_time", .vStr (fmtTime resp.endTime)),
   ("First Name", .vStr (nameWord athleteName 0)),
   ("Last Name", .vStr (nameWord athleteName 1)),
   ("Date", .vStr (fmtDate resp.endTime)),
   ("Time", .vStr (fmtTime resp.endTime)),
   ("ID", .vStr (compositeId measurementId athleteId)),
   ("Session Type", resp.measurementType),
   ("RMSSD", ex.rmssd),
   ("ACWR", ex.acwr),
   ("HR Avg", ex.hrAvg),
   ("HR Peak", ex.hrPeak),
   ("TRIMP", ex.trimp),
   ("Movement Load", ex.movementLoad),
   ("Zone 1 (min)", ex.zone1),
   ("Zone 2 (min)", ex.zone2),
   ("Zone 3 (min)", ex.zone3),
   ("Zone 4 (min)", ex.zone4),
   ("Zone 5 (min)", ex.zone5)]

/-- Modelled from the spec, §4.4: the duration derivation
`durationMinutes = round((end - start) in seconds / 60, 2 decimal places)`,
which has no counterpart in the source.  Stated over exact rationals. -/
def specDurationMinutes (startSec endSec : Int) : ℚ :=
  (round ((((endSec - startSec : ℤ) : ℚ) / 60) * 100) : ℤ) / 100

/-! ## Rate/retry-aware GET client (src/firstbeat_api.py lines 69–127) -/

/-- An HTTP response as this code observes it: a status code and the
optional `Retry-After` header string. -/
structure HttpResponse where
  status : Nat
  retryAfter : Option String
deriving DecidableEq, Repr

/-- The outcome of one `requests.get`/`requests.post` call: a response, or
a raised `requests.RequestException` (network error) carrying a message. -/
inductive ReqOutcome where
  | resp : HttpResponse → ReqOutcome
  | err : String → ReqOutcome
deriving DecidableEq, Repr

/-- `_retry_after_seconds(response, fallback_seconds)`, lines 69–76:
an absent or falsy header and an unparseable header give the fallback;
a header parseable as an integer gives `max(int(header), 1)`. -/
def retryAfterSeconds (response : HttpResponse) (fallbackSeconds : Int) : Int :=
  match response.retryAfter with
  | none => fallbackSeconds
  | some ra =>
    if ra = "" then fallbackSeconds
    else
      match pyParseInt ra with
      | some n => max n 1
      | none => fallbackSeconds

instance {ε α : Type} [DecidableEq ε] [DecidableEq α] : DecidableEq (Except ε α) := fun x y =>
  match x, y with
  | .ok a, .ok b =>
    if h : a = b then isTrue (by rw [h]) else isFalse (by simp [h])
  | .ok _, .error _ => isFalse (by simp)
  | .error _, .ok _ => isFalse (by simp)
  | .error a, .error b =>
    if h : a = b then isTrue (by rw [h]) else isFalse (by simp [h])

/-- The observable trace of one `test_endpoint` call: its return value or
raised exception, the number of HTTP requests issued, and the sleeps
performed, in order. -/
structure GetTrace where
  result : Except (Option String) HttpResponse
  requests : Nat
  sleeps : List Int
deriving DecidableEq, Repr

/-- The body of `test_endpoint`'s retry loop, lines 87–127.  `oracle i` is
the outcome of the i-th HTTP request; `fuel` is the number of loop
iterations left (`maxRetries + 1 - attempt`); `lastResp` is the `response`
variable surviving from earlier iterations and `lastExc` the last caught
exception (both only matter for the post-loop lines 125–127). -/
def testEndpointGo (oracle : Nat → ReqOutcome) (maxRetries : Nat) :
    Nat → Nat → Nat → List Int → Option HttpResponse → Option String → GetTrace
  | 0, reqCount, _, acc, lastResp, lastExc =>
    match lastResp with
    | some r => { result := .ok r, requests := reqCount, sleeps := acc }
    | none => { result := .error lastExc, requests := reqCount, sleeps := acc }
  | fuel + 1, reqCount, attempt, acc, lastResp, lastExc =>
    match oracle reqCount with
    | .err e =>
      if attempt = maxRetries then
        { result := .error (some e), requests := reqCount + 1, sleeps := acc }
      else
        testEndpointGo oracle maxRetries fuel (reqCount + 1) (attempt + 1)
          (acc ++ [min ((2 : Int) ^ attempt) 30]) lastResp (some e)
    | .resp r =>
      if r.status = 202 then
        if attempt = maxRetries then
          { result := .ok r, requests := reqCount + 1, sleeps := acc }
        else
          testEndpointGo oracle maxRetries fuel (reqCount + 1) (attempt + 1)
            (acc ++ [(5 : Int)]) (some r) lastExc
      else if r.status = 429 then
        let wait := retryAfterSeconds r (min ((2 : Int) ^ attempt) 60)
        if attempt = maxRetries then
          { result := .ok r, requests := reqCount + 1, sleeps := acc }
        else
          testEndpointGo oracle maxRetries fuel (reqCount + 1) (attempt + 1)
            (acc ++ [wait]) (some r) lastExc
      else if 500 ≤ r.status then
        if attempt = maxRetries then
          { result := .ok r, requests := reqCount + 1, sleeps := acc }
        else
          testEndpointGo oracle maxRetries fuel (reqCount + 1) (attempt + 1)
            (acc ++ [min ((2 : Int) ^ attempt) 30]) (some r) lastExc
      else
        { result := .ok r, requests := reqCount + 1, sleeps := acc }

/-- `test_endpoint(name, url, params, max_retries)`: run the loop for
attempts 1..maxRetries (the default `max_retries` in the source is 5). -/
def testEndpoint (oracle : Nat → ReqOutcome) (maxRetries : Nat := 5) : GetTrace :=
  testEndpointGo oracle maxRetries maxRetries 0 1 [] none none

/-! ## POST client with retries (src/teamworks_api.py lines 174–206) -/

/-- The exception `_post_with_retries` can raise: an `HTTPError` carrying
its response, a plain `RequestException` message, or the degenerate
`raise None` of a zero-attempt call. -/
inductive PostError where
  | httpError : HttpResponse → PostError
  | reqError : String → PostError
  | noneError : PostError
deriving DecidableEq, Repr

/-- The observable trace of one `_post_with_retries` call. -/
structure PostTrace where
  result : Except PostError HttpResponse
  attempts : Nat
  sleeps : List Int
deriving DecidableEq, Repr

/-- The loop of `_post_with_retries`, lines 180–206.  `raise_for_status`
turns any status ≥ 400 into an `HTTPError`; a status below 500 is
re-raised at once, other failures sleep `2 ** (attempt - 1)` when attempts
remain.  `fuel = maxAttempts + 1 - attempt`. -/
def postWithRetriesGo (oracle : Nat → ReqOutcome) (maxAttempts : Nat) :
    Nat → Nat → List Int → Option PostError → PostTrace
  | 0, attempt, acc, lastError =>
    { result := .error (lastError.getD .noneError), attempts := attempt - 1, sleeps := acc }
  | fuel + 1, attempt, acc, _ =>
    match oracle (attempt - 1) with
    | .resp r =>
      if 400 ≤ r.status then
        if r.status < 500 then
          { result := .error (.httpError r), attempts := attempt, sleeps := acc }
        else if attempt < maxAttempts then
          postWithRetriesGo oracle maxAttempts fuel (attempt + 1)
            (acc ++ [(2 : Int) ^ (attempt - 1)]) (some (.httpError r))
        else
          postWithRetriesGo oracle maxAttempts fuel (attempt + 1) acc (some (.httpError r))
      else
        { result := .ok r, attempts := attempt, sleeps := acc }
    | .err e =>
      if attempt < maxAttempts then
        postWithRetriesGo oracle maxAttempts fuel (attempt + 1)
          (acc ++ [(2 : Int) ^ (attempt - 1)]) (some (.reqError e))
      else
        postWithRetriesGo oracle maxAttempts fuel (attempt + 1) acc (some (.reqError e))

/-- `_post_with_retries(..., max_attempts=3)`. -/
def postWithRetries (oracle : Nat → ReqOutcome) (maxAttempts : Nat := 3) : PostTrace :=
  postWithRetriesGo oracle maxAttempts maxAttempts 1 [] none

/-! ## Dedup resolver (src/teamworks_api.py lines 169–171, 296–355) -/

/-- `_chunk_list(values, chunk_size)`: successive slices of `chunk_size`
(a `chunk_size` of 0 would raise in Python's `range`; it yields `[]` here
and is never used — the source always passes 25). -/
def chunkList (values : List α) (chunkSize : Nat) : List (List α) :=
  match values, chunkSize with
  | [], _ => []
  | _ :: _, 0 => []
  | v :: vs, n + 1 => (v :: vs).take (n + 1) :: chunkList (vs.drop n) (n + 1)
termination_by values.length
decreasing_by
  simp only [List.length_cons, List.length_drop]
  omega

/-- `list(dict.fromkeys(xs))`: drop later duplicates, keeping first-occurrence
order. -/
def dedupFirst [DecidableEq α] : List α → List α
  | [] => []
  | a :: l => a :: dedupFirst (l.filter (fun x => x ≠ a))
termination_by l => l.length
decreasing_by
  exact Nat.lt_succ_of_le (List.length_filter_le _ _)

/-- The outcome of one `_fetch_existing_measurement_ids_for_user_batch`
call (pagination folded into the oracle): the collected "ID" values, a
raised `HTTPError` with the status of its response (`none` when the
exception has no response), or another `RequestException`. -/
inductive FetchOutcome where
  | ok : List String → FetchOutcome
  | httpErr : Option Nat → FetchOutcome
  | reqErr : String → FetchOutcome
deriving DecidableEq, Repr

/-- The warning printed before a one-at-a-time fallback (lines 330–333). -/
def batchWarn (batchLen status : Nat) : String :=
  "WARNING: Smartabase sync returned " ++ toString status ++
    " for a user batch of " ++ toString batchLen ++ ". Retrying one user at a time."

/-- The warning printed when a single-user fallback fetch fails (line 347). -/
def singleWarn (userId : Int) : String :=
  "WARNING: Could not dedupe existing events for user_id=" ++ toString userId

/-- The warning printed when a batch fails with a non-HTTP
`RequestException` (line 353). -/
def reqWarn (e : String) : String :=
  "WARNING: Could not fetch existing event IDs for a user batch: " ++ e

/-- Lines 334–347: query each member of a failed batch on its own,
merging the ids of members that succeed and logging members that fail
(any `RequestException`, `HTTPError` included, is caught there). -/
def fetchSingles (fetch : List Int → FetchOutcome) :
    List Int → Finset String → Finset String × List String
  | [], acc => (acc, [])
  | u :: rest, acc =>
    match fetch [u] with
    | .ok ids => fetchSingles fetch rest (acc ∪ ids.toFinset)
    | .httpErr _ =>
      let (acc2, warns) := fetchSingles fetch rest acc
      (acc2, singleWarn u :: warns)
    | .reqErr _ =>
      let (acc2, warns) := fetchSingles fetch rest acc
      (acc2, singleWarn u :: warns)

/-- The observable trace of `get_existing_measurement_ids`: its returned
id set or the propagated `HTTPError` status, the fetch calls issued (each
a user-id list), and the warnings printed. -/
structure DedupTrace where
  result : Except (Option Nat) (Finset String)
  calls : List (List Int)
  warnings : List String
deriving DecidableEq

/-- The `for batch in _chunk_list(...)` loop of lines 313–353. -/
def processBatches (fetch : List Int → FetchOutcome) :
    List (List Int) → Finset String → DedupTrace
  | [], acc => { result := .ok acc, calls := [], warnings := [] }
  | b :: rest, acc =>
    match fetch b with
    | .ok ids =>
      let t := processBatches fetch rest (acc ∪ ids.toFinset)
      { t with calls := b :: t.calls }
    | .httpErr (some s) =>
      if 500 ≤ s ∧ 1 < b.length then
        let (acc2, warns) := fetchSingles fetch b acc
        let t := processBatches fetch rest acc2
        { result := t.result,
          calls := b :: (b.map fun u => [u]) ++ t.calls,
          warnings := batchWarn b.length s :: warns ++ t.warnings }
      else
        { result := .error (some s), calls := [b], warnings := [] }
    | .httpErr none =>
      { result := .error none, calls := [b], warnings := [] }
    | .reqErr e =>
      let t := processBatches fetch rest acc
      { t with calls := b :: t.calls, warnings := reqWarn e :: t.warnings }

/-- `get_existing_measurement_ids(user_ids, ...)`, lines 296–355: the
input user ids (with pandas NA as `none`) are NA-filtered, deduplicated
keeping first occurrence, chunked into batches of 25 and fetched with the
one-at-a-time fallback on 5xx batch failures.  `fetch` is the oracle for
`_fetch_existing_measurement_ids_for_user_batch` on a given user-id list. -/
def getExistingMeasurementIds (fetch : List Int → FetchOutcome)
    (userIds : List (Option Int)) : DedupTrace :=
  if userIds = [] then { result := .ok ∅, calls := [], warnings := [] }
  else
    processBatches fetch (chunkList (dedupFirst (userIds.filterMap id)) 25) ∅

/-! ## Event payload and uploader (src/teamworks_api.py lines 33–152) -/

/-- The fixed allow-list of pair keys, lines 35–50. -/
def pairKeys : List String :=
  ["ID", "Duration", "Session Type", "ACWR", "RMSSD", "HR Avg", "HR Peak",
   "TRIMP", "Movement Load", "Zone 1 (min)", "Zone 2 (min)", "Zone 3 (min)",
   "Zone 4 (min)", "Zone 5 (min)"]

/-- The wire payload of lines 57–70 (the fixed `rows/[row 0]` wrapper is
flattened into the `pairs` field). -/
structure EventPayload where
  formName : String
  startDate : Value
  startTime : Value
  finishDate : Value
  finishTime : Value
  userId : Int
  pairs : List (String × String)
deriving DecidableEq, Repr

/-- `_build_event_payload(row, form_name)`, lines 33–70.  `today` stands
for `pd.Timestamp.now().strftime("%d/%m/%Y")`, the default used when a
date column is absent. -/
def buildEventPayload (row : Row) (formName today : String) : EventPayload where
  formName := formName
  startDate := row.pyGet "start_date" (.vStr today)
  startTime := row.pyGet "start_time" (.vStr "")
  finishDate := row.pyGet "end_date" (.vStr today)
  finishTime := row.pyGet "end_time" (.vStr "")
  userId := (row.idx "user_id").toIntVal
  pairs := pairKeys.map fun k => (k, (row.pyGet k (.vStr "")).toStr)

/-- The required-columns list of line 85. -/
def requiredColumns : List String := ["First Name", "Last Name", "ID"]

/-- Lines 101–104: `df["user_id"] = df.apply(lambda r: user_map.get((r["First
Name"], r["Last Name"])), axis=1)` — appends a `user_id` cell per row, `vNone`
(NaN) when the name pair is unmapped.  The user map (built by
`get_usss_user_map`) is passed in as an association list with unique keys. -/
def addUserIdColumn (userMap : List ((String × String) × Int)) (df : DataFrame) :
    DataFrame where
  cols := df.cols ++ ["user_id"]
  rows := df.rows.map fun r =>
    r.setCell "user_id"
      (match alookup userMap ((r.idx "First Name").toStr, (r.idx "Last Name").toStr) with
      | some uid => Value.vInt uid
      | none => Value.vNone)

/-- The rows that reach the upload loop: user-mapped (line 106) and not
already present at the destination (line 117). -/
def survivingRows (userMap : List ((String × String) × Int))
    (existingIds : List Value) (df : DataFrame) : List Row :=
  ((addUserIdColumn userMap df).rows.filter
      (fun r => r.idx "user_id" ≠ .vNone)).filter
    (fun r => r.idx "ID" ∉ existingIds)

/-- The outcome of one `upload_dataframe` call: the returned count, the
printed lines, and the payloads POSTed to `eventimport`, in order. -/
structure UploadResult where
  count : Nat
  log : List String
  posts : List EventPayload
deriving DecidableEq, Repr

/-- The success line of line 145. -/
def uploadedMsg (row : Row) : String :=
  "Uploaded Measurement: " ++ (row.idx "First Name").toStr ++ " " ++
    (row.idx "Last Name").toStr ++ " (Session ID: " ++ (row.idx "ID").toStr ++ ")"

/-- The failure line of line 147 (the response body is not modelled). -/
def failedMsg (row : Row) (status : Nat) : String :=
  "FAILED (" ++ (row.idx "ID").toStr ++ "): " ++ toString status

/-- The upload loop of lines 131–147: one plain `requests.post` per row
(no retry); `statuses i` is the status code of the i-th POST.  A 200
increments the count and (when verbose) logs success; any other status
logs failure unconditionally and the loop continues. -/
def uploadLoopGo (formName today : String) (verbose : Bool) (statuses : Nat → Nat) :
    List Row → Nat → UploadResult
  | [], _ => { count := 0, log := [], posts := [] }
  | r :: rest, i =>
    let p := buildEventPayload r formName today
    let t := uploadLoopGo formName today verbose statuses rest (i + 1)
    if statuses i = 200 then
      { count := t.count + 1,
        log := (if verbose then [uploadedMsg r] else []) ++ t.log,
        posts := p :: t.posts }
    else
      { count := t.count,
        log := failedMsg r (statuses i) :: t.log,
        posts := p :: t.posts }

/-- The three short-circuit messages of lines 92, 110 and 121. -/
def msgNoData : String := "No data rows provided. Nothing to upload."

def msgNoUsers : String := "No rows matched Smartabase users. Nothing to upload."

def msgAllExist : String := "All rows already exist in Smartabase. Nothing to upload."

/-- `upload_dataframe(df, form_name, ...)`, lines 77–152.  The user map
and the existing-id set are passed in as the values the resolver calls of
lines 98 and 116 return; `statuses` gives the status of each `eventimport`
POST.  Raising `ValueError` on missing columns is the `.error` case. -/
def uploadDataframe (df : DataFrame) (formName : String)
    (userMap : List ((String × String) × Int)) (existingIds : List Value)
    (statuses : Nat → Nat) (today : String) (verbose : Bool := true) :
    Except String UploadResult :=
  if ¬ requiredColumns.all (fun c => c ∈ df.cols) then
    .error "DataFrame must contain the required columns"
  else if df.rows.isEmpty then
    .ok { count := 0, log := if verbose then [msgNoData] else [], posts := [] }
  else
    let df2 : DataFrame :=
      { cols := (addUserIdColumn userMap df).cols,
        rows := (addUserIdColumn userMap df).rows.filter
          (fun r => r.idx "user_id" ≠ .vNone) }
    if df2.rows.isEmpty then
      .ok { count := 0, log := if verbose then [msgNoUsers] else [], posts := [] }
    else
      let df3 : DataFrame :=
        { cols := df2.cols,
          rows := df2.rows.filter (fun r => r.idx "ID" ∉ existingIds) }
      if df3.rows.isEmpty then
        .ok { count := 0, log := if verbose then [msgAllExist] else [], posts := [] }
      else
        let t := uploadLoopGo formName today verbose statuses df3.rows 0
        .ok { t with
          log := t.log ++
            (if verbose then
              ["Successfully uploaded " ++ toString t.count ++ " " ++
                formName ++ " events."]
            else []) }

/-- Modelled from the spec, §4.2/§4.7: the final status a per-record POST
would see if it were issued through the module's retry policy
(`_post_with_retries`: up to 3 attempts, 5xx retried); returns the final
status together with the number of requests spent.  The source's upload
loop does not do this; the definition exists to compare against it. -/
def specRetryFinalStatus (statuses : Nat → Nat) (reqIdx : Nat) : Nat × Nat :=
  if statuses reqIdx < 500 then (statuses reqIdx, 1)
  else if statuses (reqIdx + 1) < 500 then (statuses (reqIdx + 1), 2)
  else (statuses (reqIdx + 2), 3)

/-! ## Aliasing model for `upload_dataframe` (src/teamworks_api.py lines 89–152)

`upload_dataframe`'s local variable `df` initially aliases the caller's
DataFrame object; `df.copy()` (line 100) rebinds it to a fresh object, the
column assignment of line 101 mutates whatever object it currently points
to, and the boolean-mask filters of lines 106/117 rebind it to fresh
objects.  The state threads the caller's object explicitly so that the
no-mutation claim is about the heap, not about value semantics. -/

/-- The object `df` currently denotes: the caller's object, or an owned one. -/
inductive LocalDf where
  | aliasCaller : LocalDf
  | owned : DataFrame → LocalDf

/-- Dereference the local variable. -/
def readDf (caller : DataFrame) : LocalDf → DataFrame
  | .aliasCaller => caller
  | .owned d => d

/-- The in-place column assignment of line 101, applied to whichever
object the local variable aliases. -/
def setUserIdCol (userMap : List ((String × String) × Int))
    (caller : DataFrame) : LocalDf → DataFrame × LocalDf
  | .aliasCaller => (addUserIdColumn userMap caller, .aliasCaller)
  | .owned d => (caller, .owned (addUserIdColumn userMap d))

/-- `upload_dataframe` over the aliasing state: same control flow as
`uploadDataframe`, returning alongside the result the caller's DataFrame
object as it stands after the call. -/
def uploadDataframeState (df0 : DataFrame) (formName : String)
    (userMap : List ((String × String) × Int)) (existingIds : List Value)
    (statuses : Nat → Nat) (today : String) (verbose : Bool := true) :
    Except String UploadResult × DataFrame :=
  let caller := df0
  let l : LocalDf := .aliasCaller
  if ¬ requiredColumns.all (fun c => c ∈ (readDf caller l).cols) then
    (.error "DataFrame must contain the required columns", caller)
  else if (readDf caller l).rows.isEmpty then
    (.ok { count := 0, log := if verbose then [msgNoData] else [], posts := [] }, caller)
  else
    let l2 : LocalDf := .owned (readDf caller l)
    let s3 := setUserIdCol userMap caller l2
    let caller3 := s3.1
    let l3 := s3.2
    let l4 : LocalDf := .owned
      { cols := (readDf caller3 l3).cols,
        rows := (readDf caller3 l3).rows.filter (fun r => r.idx "user_id" ≠ .vNone) }
    if (readDf caller3 l4).rows.isEmpty then
      (.ok { count := 0, log := if verbose then [msgNoUsers] else [], posts := [] }, caller3)
    else
      let l5 : LocalDf := .owned
        { cols := (readDf caller3 l4).cols,
          rows := (readDf caller3 l4).rows.filter (fun r => r.idx "ID" ∉ existingIds) }
      if (readDf caller3 l5).rows.isEmpty then
        (.ok { count := 0, log := if verbose then [msgAllExist] else [], posts := [] }, caller3)
      else
        let t := uploadLoopGo formName today verbose statuses (readDf caller3 l5).rows 0
        (.ok { t with
          log := t.log ++
            (if verbose then
              ["Successfully uploaded " ++ toString t.count ++ " " ++
                formName ++ " events."]
            else []) }, caller3)

/-! ## Helper lemmas -/

/-- Whether the one-user fallback fetch for `u` succeeds. -/
def fetchOk (fetch : List Int → FetchOutcome) (u : Int) : Bool :=
  match fetch [u] with
  | .ok _ => true
  | _ => false

theorem alookup_append {A B : Type} [DecidableEq A] (k : A) (r l : List (A × B)) :
    alookup (r ++ l) k = (alookup r k).or (alookup l k) := by
  induction r with
  | nil => simp [alookup]
  | cons a r ih =>
    obtain ⟨a1, av⟩ := a
    by_cases h : k = a1
    · simp [alookup, h]
    · simp [alookup, h, ih]

theorem alookup_filter_ne (k k2 : String) (r : Row) (h : k ≠ k2) :
    alookup (r.filter fun p => p.1 ≠ k2) k = alookup r k := by
  induction r with
  | nil => rfl
  | cons a r ih =>
    obtain ⟨a1, av⟩ := a
    by_cases h2 : a1 = k2
    · rw [List.filter_cons, if_neg (by simp [h2])]
      have hka : k ≠ a1 := fun he => h (he.trans h2)
      rw [ih]
      simp only [alookup, if_neg hka]
    · rw [List.filter_cons, if_pos (by simp [h2])]
      simp only [alookup]
      by_cases h3 : k = a1
      · rw [if_pos h3, if_pos h3]
      · rw [if_neg h3, if_neg h3, ih]

theorem alookup_filter_self (k : String) (r : Row) :
    alookup (r.filter fun p => p.1 ≠ k) k = none := by
  induction r with
  | nil => rfl
  | cons a r ih =>
    obtain ⟨a1, av⟩ := a
    by_cases h2 : a1 = k
    · rw [List.filter_cons, if_neg (by simp [h2])]
      exact ih
    · rw [List.filter_cons, if_pos (by simp [h2])]
      simp only [alookup]
      rw [if_neg fun he => h2 he.symm]
      exact ih

theorem idx_setCell_eq (r : Row) (k : String) (v : Value) :
    (r.setCell k v).idx k = v := by
  unfold Row.setCell Row.idx
  rw [alookup_append, alookup_filter_self]
  simp [alookup]

theorem idx_setCell_ne (r : Row) (k k2 : String) (v : Value) (h : k ≠ k2) :
    (r.setCell k2 v).idx k = r.idx k := by
  unfold Row.setCell Row.idx
  rw [alookup_append, alookup_filter_ne k k2 r h]
  simp [alookup, h]

theorem pyGet_setCell_ne (r : Row) (k k2 : String) (v d : Value) (h : k ≠ k2) :
    (r.setCell k2 v).pyGet k d = r.pyGet k d := by
  unfold Row.setCell Row.pyGet
  rw [alookup_append, alookup_filter_ne k k2 r h]
  simp [alookup, h]

theorem foldl_varmap_no_match (n : String) (vars : List VarEntry)
    (init : Option Value) (h : ∀ e ∈ vars, e.name ≠ some n) :
    vars.foldl (fun acc e => if e.name = some n then some e.value else acc) init = init := by
  induction vars generalizing init with
  | nil => rfl
  | cons e vars ih =>
    have he := h e (by simp)
    simp only [List.foldl_cons, if_neg he]
    exact ih _ fun x hx => h x (by simp [hx])

theorem lookupByName_eq_none (vars : List VarEntry) (n : String)
    (h : ∀ e ∈ vars, e.name ≠ some n) : lookupByName vars n = none :=
  foldl_varmap_no_match n vars none h

/-! ## Theorems for the claims -/

/-- C9: for all (measurementId, athleteId) pairs the composite dedup id is
the string `{measurementId}-{athleteId}` (and it is the value the session
builder stores under "ID"), and it is deterministic: computing it twice for
the same pair yields identical strings. -/
theorem composite_id_shape_and_deterministic (fmtDate fmtTime : Int → String)
    (m : String) (a : Nat) (name : String) (resp : MeasurementDetail) :
    (buildSession fmtDate fmtTime m a name resp).idx "ID" = .vStr (compositeId m a) ∧
    compositeId m a = m ++ "-" ++ toString a ∧
    compositeId m a = compositeId m a :=
  ⟨rfl, rfl, rfl⟩

/-- C6: variable extraction is keyed by name — it depends only on the
name-to-value mapping of the response, never on entry positions — and a
variable absent from the response yields the documented default (`""` for
the six scalar vendor metrics, `0` for the five zone durations) without
raising. -/
theorem extraction_by_name_defaults (vars : List VarEntry) :
    ((∀ e ∈ vars, e.name ≠ some "rmssd") → (extractVariables vars).rmssd = .vStr "") ∧
    ((∀ e ∈ vars, e.name ≠ some "acwr") → (extractVariables vars).acwr = .vStr "") ∧
    ((∀ e ∈ vars, e.name ≠ some "heartRateAverage") →
      (extractVariables vars).hrAvg = .vStr "") ∧
    ((∀ e ∈ vars, e.name ≠ some "heartRatePeak") →
      (extractVariables vars).hrPeak = .vStr "") ∧
    ((∀ e ∈ vars, e.name ≠ some "trimp") → (extractVariables vars).trimp = .vStr "") ∧
    ((∀ e ∈ vars, e.name ≠ some "movementLoad") →
      (extractVariables vars).movementLoad = .vStr "") ∧
    ((∀ e ∈ vars, e.name ≠ some "zone1Time") → (extractVariables vars).zone1 = .vInt 0) ∧
    ((∀ e ∈ vars, e.name ≠ some "zone2Time") → (extractVariables vars).zone2 = .vInt 0) ∧
    ((∀ e ∈ vars, e.name ≠ some "zone3Time") → (extractVariables vars).zone3 = .vInt 0) ∧
    ((∀ e ∈ vars, e.name ≠ some "zone4Time") → (extractVariables vars).zone4 = .vInt 0) ∧
    ((∀ e ∈ vars, e.name ≠ some "zone5Time") → (extractVariables vars).zone5 = .vInt 0) ∧
    (∀ vs2 : List VarEntry, (∀ n, lookupByName vars n = lookupByName vs2 n) →
      extractVariables vars = extractVariables vs2) := by
  refine ⟨?_, ?_, ?_, ?_, ?_, ?_, ?_, ?_, ?_, ?_, ?_, ?_⟩
  case _ => intro h; simp [extractVariables, varLookup, lookupByName_eq_none _ _ h]
  case _ => intro h; simp [extractVariables, varLookup, lookupByName_eq_none _ _ h]
  case _ => intro h; simp [extractVariables, varLookup, lookupByName_eq_none _ _ h]
  case _ => intro h; simp [extractVariables, varLookup, lookupByName_eq_none _ _ h]
  case _ => intro h; simp [extractVariables, varLookup, lookupByName_eq_none _ _ h]
  case _ => intro h; simp [extractVariables, varLookup, lookupByName_eq_none _ _ h]
  case _ => intro h; simp [extractVariables, varLookup, lookupByName_eq_none _ _ h]
  case _ => intro h; simp [extractVariables, varLookup, lookupByName_eq_none _ _ h]
  case _ => intro h; simp [extractVariables, varLookup, lookupByName_eq_none _ _ h]
  case _ => intro h; simp [extractVariables, varLookup, lookupByName_eq_none _ _ h]
  case _ => intro h; simp [extractVariables, varLookup, lookupByName_eq_none _ _ h]
  case _ => intro vs2 h; simp only [extractVariables, varLookup, h]

theorem extraction_by_name_defaults_witness :
    (extractVariables []).rmssd = .vStr "" ∧ (extractVariables []).acwr = .vStr "" ∧
    (extractVariables []).hrAvg = .vStr "" ∧ (extractVariables []).hrPeak = .vStr "" ∧
    (extractVariables []).trimp = .vStr "" ∧
    (extractVariables []).movementLoad = .vStr "" ∧
    (extractVariables []).zone1 = .vInt 0 ∧ (extractVariables []).zone2 = .vInt 0 ∧
    (extractVariables []).zone3 = .vInt 0 ∧ (extractVariables []).zone4 = .vInt 0 ∧
    (extractVariables []).zone5 = .vInt 0 ∧
    extractVariables [] = extractVariables [] := by
  have h := extraction_by_name_defaults []
  exact ⟨h.1 (by simp), h.2.1 (by simp), h.2.2.1 (by simp), h.2.2.2.1 (by simp),
    h.2.2.2.2.1 (by simp), h.2.2.2.2.2.1 (by simp), h.2.2.2.2.2.2.1 (by simp),
    h.2.2.2.2.2.2.2.1 (by simp), h.2.2.2.2.2.2.2.2.1 (by simp),
    h.2.2.2.2.2.2.2.2.2.1 (by simp), h.2.2.2.2.2.2.2.2.2.2.1 (by simp),
    h.2.2.2.2.2.2.2.2.2.2.2 [] fun n => rfl⟩

/-- C5: the claim says the transformer derives
`duration = round((endTime - startTime)/60 seconds, 2)` and carries it in
the payload's "Duration" pair.  The session builder has no "Duration" key,
so for the session of a one-hour measurement the uploaded "Duration" pair
carries the empty string, while the spec's derivation gives 60 minutes. -/
theorem duration_pair_empty_not_derived :
    alookup (buildEventPayload
      (buildSession (fun _ => "01/01/2024") (fun _ => "9:00 AM") "M1" 1 "Ann Lee"
        { startTime := 0, endTime := 3600, measurementType := .vStr "Test",
          varEntries := [] })
      "Firstbeat Summary Stats" "01/01/2024").pairs "Duration" = some "" ∧
    specDurationMinutes 0 3600 = 60 ∧
    ("" : String) ≠ "60" ∧ ("" : String) ≠ "60.0" :=
  ⟨by decide, by norm_num [specDurationMinutes], by decide, by decide⟩

/-- C4 counterexample: a 429 whose Retry-After header parses as the
non-positive integer 0 makes the client sleep `max(0, 1) = 1` second at
attempt 1, not the exponential fallback `min(2^1, 60) = 2` the claim
requires for headers that are not positive integers. -/
theorem retry_after_nonpositive_cex :
    (testEndpoint (fun i => if i = 0 then .resp ⟨429, some "0"⟩ else .resp ⟨200, none⟩)
      5).sleeps = [1] ∧
    retryAfterSeconds ⟨429, some "0"⟩ (min ((2 : Int) ^ 1) 60) = 1 ∧
    (1 : Int) ≠ min ((2 : Int) ^ 1) 60 :=
  ⟨by decide, by decide, by decide⟩

/-- C4 (amended): before the final attempt, a 429 makes the client sleep
the Retry-After value when the header is present and parseable as a
positive integer; when it parses as a non-positive integer the client
sleeps `max(value, 1) = 1` second; when it is absent or unparseable it
sleeps the exponential fallback `min(2^attempt, 60)`; in particular for
responses `[429 Retry-After 2, 429 Retry-After 2, 200]` exactly two
2-second sleeps occur and the 200 response is returned. -/
theorem retry_after_policy :
    (∀ (r : HttpResponse) (fb : Int), r.retryAfter = none →
      retryAfterSeconds r fb = fb) ∧
    (∀ (r : HttpResponse) (fb : Int) (s : String), r.retryAfter = some s →
      pyParseInt s = none → retryAfterSeconds r fb = fb) ∧
    (∀ (r : HttpResponse) (fb : Int) (s : String) (n : Int), r.retryAfter = some s →
      pyParseInt s = some n → 0 < n → retryAfterSeconds r fb = n) ∧
    (∀ (r : HttpResponse) (fb : Int) (s : String) (n : Int), r.retryAfter = some s →
      pyParseInt s = some n → n ≤ 0 → retryAfterSeconds r fb = 1) ∧
    (testEndpoint (fun i => if i < 2 then .resp ⟨429, some "2"⟩ else .resp ⟨200, none⟩) 5 =
      { result := .ok ⟨200, none⟩, requests := 3, sleeps := [2, 2] }) := by
  refine ⟨?_, ?_, ?_, ?_, by decide⟩
  · intro r fb h
    simp [retryAfterSeconds, h]
  · intro r fb s hs hp
    by_cases he : s = "" <;> simp [retryAfterSeconds, hs, he, hp]
  · intro r fb s n hs hp hpos
    have he : s ≠ "" := by
      intro he
      rw [he] at hp
      rw [show pyParseInt "" = none from rfl] at hp
      exact Option.noConfusion hp
    simp only [retryAfterSeconds, hs, if_neg he, hp]
    exact max_eq_left (by omega)
  · intro r fb s n hs hp hneg
    have he : s ≠ "" := by
      intro he
      rw [he] at hp
      rw [show pyParseInt "" = none from rfl] at hp
      exact Option.noConfusion hp
    simp only [retryAfterSeconds, hs, if_neg he, hp]
    exact max_eq_right (by omega)

theorem retry_after_policy_witness :
    retryAfterSeconds ⟨429, none⟩ 8 = 8 ∧
    retryAfterSeconds ⟨429, some "soon"⟩ 8 = 8 ∧
    retryAfterSeconds ⟨429, some "2"⟩ 8 = 2 ∧
    retryAfterSeconds ⟨429, some "-3"⟩ 8 = 1 := by
  have h := retry_after_policy
  exact ⟨h.1 ⟨429, none⟩ 8 rfl, h.2.1 ⟨429, some "soon"⟩ 8 "soon" rfl (by decide),
    h.2.2.1 ⟨429, some "2"⟩ 8 "2" 2 rfl (by decide) (by decide),
    h.2.2.2.1 ⟨429, some "-3"⟩ 8 "-3" (-3) rfl (by decide) (by decide)⟩

/-- C8: when the first response has a 4xx status other than 429, the GET
client returns it at once — one request, no sleep — and the POST client
re-raises the `HTTPError` at once — one attempt, no sleep. -/
theorem fourxx_fails_fast (oracle : Nat → ReqOutcome) (r : HttpResponse)
    (maxRetries : Nat) (h0 : oracle 0 = .resp r) (h4 : 400 ≤ r.status)
    (h5 : r.status < 500) (h429 : r.status ≠ 429) (hm : 1 ≤ maxRetries) :
    testEndpoint oracle maxRetries =
      { result := .ok r, requests := 1, sleeps := [] } ∧
    postWithRetries oracle 3 =
      { result := .error (.httpError r), attempts := 1, sleeps := [] } := by
  obtain ⟨m, rfl⟩ : ∃ m, maxRetries = m + 1 := ⟨maxRetries - 1, by omega⟩
  have h202 : r.status ≠ 202 := by omega
  have h500 : ¬ 500 ≤ r.status := by omega
  constructor
  · simp [testEndpoint, testEndpointGo, h0, h202, h429, h500]
  · simp [postWithRetries, postWithRetriesGo, h0, h4, h5]

theorem fourxx_fails_fast_witness :
    testEndpoint (fun _ => .resp ⟨404, none⟩) 5 =
      { result := .ok ⟨404, none⟩, requests := 1, sleeps := [] } ∧
    postWithRetries (fun _ => .resp ⟨404, none⟩) 3 =
      { result := .error (.httpError ⟨404, none⟩), attempts := 1, sleeps := [] } :=
  fourxx_fails_fast (fun _ => .resp ⟨404, none⟩) ⟨404, none⟩ 5 rfl (by decide)
    (by decide) (by decide) (by decide)

theorem fetchSingles_acc_subset (fetch : List Int → FetchOutcome)
    (batch : List Int) (acc : Finset String) :
    acc ⊆ (fetchSingles fetch batch acc).1 := by
  induction batch generalizing acc with
  | nil => simp [fetchSingles]
  | cons u rest ih =>
    cases hu : fetch [u] with
    | ok ids =>
      simp only [fetchSingles, hu]
      exact fun x hx => ih (acc ∪ ids.toFinset) (Finset.mem_union_left _ hx)
    | httpErr s => simpa only [fetchSingles, hu] using ih acc
    | reqErr e => simpa only [fetchSingles, hu] using ih acc

theorem fetchSingles_ok_subset (fetch : List Int → FetchOutcome)
    (batch : List Int) (acc : Finset String) (u : Int) (l : List String)
    (hu : u ∈ batch) (hok : fetch [u] = .ok l) :
    l.toFinset ⊆ (fetchSingles fetch batch acc).1 := by
  induction batch generalizing acc with
  | nil => exact absurd hu (List.not_mem_nil u)
  | cons v rest ih =>
    rcases List.mem_cons.mp hu with rfl | hmem
    · simp only [fetchSingles, hok]
      exact fun x hx =>
        fetchSingles_acc_subset fetch rest (acc ∪ l.toFinset)
          (Finset.mem_union_right _ hx)
    · cases hv : fetch [v] with
      | ok ids => simpa only [fetchSingles, hv] using ih (acc ∪ ids.toFinset) hmem
      | httpErr s => simpa only [fetchSingles, hv] using ih acc hmem
      | reqErr e => simpa only [fetchSingles, hv] using ih acc hmem

theorem fetchSingles_mem_src (fetch : List Int → FetchOutcome)
    (batch : List Int) (acc : Finset String) (x : String)
    (hx : x ∈ (fetchSingles fetch batch acc).1) :
    x ∈ acc ∨ ∃ u ∈ batch, ∃ l, fetch [u] = .ok l ∧ x ∈ l := by
  induction batch generalizing acc with
  | nil => exact .inl (by simpa [fetchSingles] using hx)
  | cons v rest ih =>
    cases hv : fetch [v] with
    | ok ids =>
      rw [fetchSingles, hv] at hx
      rcases ih (acc ∪ ids.toFinset) hx with hacc | ⟨u, hu, l, hl, hxl⟩
      · rcases Finset.mem_union.mp hacc with h1 | h2
        · exact .inl h1
        · exact .inr ⟨v, by simp, ids, hv, by simpa using h2⟩
      · exact .inr ⟨u, by simp [hu], l, hl, hxl⟩
    | httpErr s =>
      rw [fetchSingles, hv] at hx
      rcases ih acc hx with hacc | ⟨u, hu, l, hl, hxl⟩
      · exact .inl hacc
      · exact .inr ⟨u, by simp [hu], l, hl, hxl⟩
    | reqErr e =>
      rw [fetchSingles, hv] at hx
      rcases ih acc hx with hacc | ⟨u, hu, l, hl, hxl⟩
      · exact .inl hacc
      · exact .inr ⟨u, by simp [hu], l, hl, hxl⟩

theorem fetchSingles_warnings (fetch : List Int → FetchOutcome)
    (batch : List Int) (acc : Finset String) :
    (fetchSingles fetch batch acc).2 =
      (batch.filter fun u => ¬ fetchOk fetch u).map singleWarn := by
  induction batch generalizing acc with
  | nil => simp [fetchSingles]
  | cons v rest ih =>
    cases hv : fetch [v] with
    | ok ids =>
      have hok : fetchOk fetch v = true := by simp [fetchOk, hv]
      simp [fetchSingles, hv, List.filter_cons, hok, ih]
    | httpErr s =>
      have hok : fetchOk fetch v = false := by simp [fetchOk, hv]
      simp [fetchSingles, hv, List.filter_cons, hok, ih]
    | reqErr e =>
      have hok : fetchOk fetch v = false := by simp [fetchOk, hv]
      simp [fetchSingles, hv, List.filter_cons, hok, ih]

theorem dedupFirst_of_nodup {A : Type} [DecidableEq A] (l : List A) (h : l.Nodup) :
    dedupFirst l = l := by
  induction l with
  | nil => simp [dedupFirst]
  | cons a l ih =>
    have hmem : a ∉ l := (List.nodup_cons.mp h).1
    have hfilter : l.filter (fun x => x ≠ a) = l := by
      apply List.filter_eq_self.mpr
      intro x hx
      simp
      exact fun he => hmem (he ▸ hx)
    rw [dedupFirst, hfilter, ih (List.nodup_cons.mp h).2]

theorem chunkList_single {A : Type} (l : List A) (n : Nat) (hne : l ≠ [])
    (hlen : l.length ≤ n + 1) : chunkList l (n + 1) = [l] := by
  cases l with
  | nil => exact absurd rfl hne
  | cons v vs =>
    rw [chunkList]
    have hdrop : vs.drop n = [] :=
      List.drop_eq_nil_of_le (by simpa using hlen)
    rw [List.take_of_length_le hlen, hdrop]
    simp [chunkList]

theorem processBatches_all_ok (fetch : List Int → FetchOutcome)
    (batches : List (List Int)) (acc : Finset String)
    (h : ∀ b ∈ batches, ∃ ids, fetch b = .ok ids) :
    (processBatches fetch batches acc).calls = batches ∧
    ∃ s, (processBatches fetch batches acc).result = .ok s := by
  induction batches generalizing acc with
  | nil => exact ⟨rfl, _, rfl⟩
  | cons b rest ih =>
    obtain ⟨ids, hids⟩ := h b (by simp)
    have hrest := ih (acc ∪ ids.toFinset) fun x hx => h x (by simp [hx])
    simp only [processBatches, hids]
    exact ⟨by rw [hrest.1], hrest.2⟩

theorem filterMap_id_map_some {A : Type} (l : List A) :
    (l.map some).filterMap id = l := by
  induction l with
  | nil => rfl
  | cons a l ih => simp [List.filterMap_cons, ih]

/-- C3: the dedup resolver NA-filters and deduplicates the input user ids
and chunks them into batches of 25 (first conjunct: on an all-successful
run it issues exactly one fetch per such batch); a batch that fails with a
5xx server error and has more than one member is re-queried one member at
a time, ids of succeeding members are merged into the result and members
that still fail are logged and skipped (second conjunct); an HTTP error
below 500 is never retried and propagates to the caller at once, with no
further fetches (third conjunct). -/
theorem dedup_resolver_batching_fallback :
    (∀ (fetch : List Int → FetchOutcome) (userIds : List (Option Int)),
      (∀ b ∈ chunkList (dedupFirst (userIds.filterMap id)) 25, ∃ ids, fetch b = .ok ids) →
      (getExistingMeasurementIds fetch userIds).calls =
        chunkList (dedupFirst (userIds.filterMap id)) 25 ∧
      ∃ s, (getExistingMeasurementIds fetch userIds).result = .ok s) ∧
    (∀ (fetch : List Int → FetchOutcome) (batch : List Int) (s : Nat),
      batch.Nodup → batch.length ≤ 25 → 1 < batch.length →
      fetch batch = .httpErr (some s) → 500 ≤ s →
      (getExistingMeasurementIds fetch (batch.map some)).calls =
        batch :: batch.map (fun u => [u]) ∧
      (∃ ids, (getExistingMeasurementIds fetch (batch.map some)).result = .ok ids ∧
        (∀ u ∈ batch, ∀ l, fetch [u] = .ok l → l.toFinset ⊆ ids) ∧
        (∀ x ∈ ids, ∃ u ∈ batch, ∃ l, fetch [u] = .ok l ∧ x ∈ l)) ∧
      (getExistingMeasurementIds fetch (batch.map some)).warnings =
        batchWarn batch.length s ::
          (batch.filter fun u => ¬ fetchOk fetch u).map singleWarn) ∧
    (∀ (fetch : List Int → FetchOutcome) (batch : List Int) (s : Nat),
      batch ≠ [] → batch.Nodup → batch.length ≤ 25 →
      fetch batch = .httpErr (some s) → s < 500 →
      (getExistingMeasurementIds fetch (batch.map some)).result = .error (some s) ∧
      (getExistingMeasurementIds fetch (batch.map some)).calls = [batch]) := by
  refine ⟨?_, ?_, ?_⟩
  · intro fetch userIds h
    by_cases hnil : userIds = []
    · subst hnil
      constructor
      · simp [getExistingMeasurementIds, dedupFirst, chunkList]
      · exact ⟨∅, by simp [getExistingMeasurementIds]⟩
    · simp only [getExistingMeasurementIds, if_neg hnil]
      exact processBatches_all_ok fetch _ ∅ h
  · intro fetch batch s hnodup hlen hgt hf h5
    have hne : batch ≠ [] := by
      intro hnil
      rw [hnil] at hgt
      simp at hgt
    have hmapne : batch.map some ≠ ([] : List (Option Int)) := by
      simpa using hne
    have hfm : (batch.map some).filterMap id = batch := filterMap_id_map_some batch
    have hded : dedupFirst batch = batch := dedupFirst_of_nodup batch hnodup
    have hchunk : chunkList batch 25 = [batch] :=
      chunkList_single batch 24 hne (by omega)
    rcases hfs : fetchSingles fetch batch ∅ with ⟨acc2, warns⟩
    have hrun : getExistingMeasurementIds fetch (batch.map some) =
        { result := .ok acc2,
          calls := batch :: (batch.map fun u => [u]) ++ [],
          warnings := batchWarn batch.length s :: warns ++ [] } := by
      rw [getExistingMeasurementIds, if_neg hmapne, hfm, hded, hchunk]
      simp only [processBatches, hf]
      rw [if_pos ⟨h5, hgt⟩]
      simp only [hfs, processBatches]
    refine ⟨?_, ⟨acc2, ?_, ?_, ?_⟩, ?_⟩
    · rw [hrun]
      simp
    · rw [hrun]
    · intro u hu l hl
      have := fetchSingles_ok_subset fetch batch ∅ u l hu hl
      rwa [hfs] at this
    · intro x hx
      have hsrc := fetchSingles_mem_src fetch batch ∅ x (by rw [hfs]; exact hx)
      rcases hsrc with habs | hok
      · exact absurd habs (Finset.not_mem_empty x)
      · exact hok
    · rw [hrun]
      have hw : warns = (batch.filter fun u => ¬ fetchOk fetch u).map singleWarn := by
        have hw0 := fetchSingles_warnings fetch batch ∅
        rwa [hfs] at hw0
      simp only [List.append_nil]
      rw [hw]
  · intro fetch batch s hne hnodup hlen hf hlt
    have hmapne : batch.map some ≠ ([] : List (Option Int)) := by
      simpa using hne
    have hfm : (batch.map some).filterMap id = batch := filterMap_id_map_some batch
    have hded : dedupFirst batch = batch := dedupFirst_of_nodup batch hnodup
    have hchunk : chunkList batch 25 = [batch] :=
      chunkList_single batch 24 hne (by omega)
    have hrun : getExistingMeasurementIds fetch (batch.map some) =
        { result := .error (some s), calls := [batch], warnings := [] } := by
      rw [getExistingMeasurementIds, if_neg hmapne, hfm, hded, hchunk]
      simp only [processBatches, hf]
      rw [if_neg (by omega : ¬ (500 ≤ s ∧ 1 < batch.length))]
    rw [hrun]
    exact ⟨rfl, rfl⟩

/-- All-successful fetch oracle for the witness's first conjunct. -/
def wfetchA : List Int → FetchOutcome := fun _ => .ok ["x"]

/-- Oracle for the witness's fallback conjunct: the two-member batch gets
a 503, member 7 succeeds alone, member 8 keeps failing. -/
def wfetchB : List Int → FetchOutcome := fun b =>
  if b = [7, 8] then .httpErr (some 503)
  else if b = [7] then .ok ["a"]
  else if b = [8] then .reqErr "boom"
  else .ok []

/-- Oracle for the witness's 4xx conjunct. -/
def wfetchC : List Int → FetchOutcome := fun _ => .httpErr (some 400)

theorem dedup_resolver_batching_fallback_witness :
    ((getExistingMeasurementIds wfetchA [some 1, some 1, none, some 2]).calls = [[1, 2]] ∧
      ∃ s1, (getExistingMeasurementIds wfetchA [some 1, some 1, none, some 2]).result =
        .ok s1) ∧
    ((getExistingMeasurementIds wfetchB (([7, 8] : List Int).map some)).calls =
        [[7, 8], [7], [8]] ∧
      (getExistingMeasurementIds wfetchB (([7, 8] : List Int).map some)).warnings =
        [batchWarn 2 503, singleWarn 8] ∧
      ∃ ids, (getExistingMeasurementIds wfetchB (([7, 8] : List Int).map some)).result =
          .ok ids ∧ "a" ∈ ids) ∧
    ((getExistingMeasurementIds wfetchC (([3] : List Int).map some)).result =
        .error (some 400) ∧
      (getExistingMeasurementIds wfetchC (([3] : List Int).map some)).calls = [[3]]) := by
  have hA := dedup_resolver_batching_fallback.1 wfetchA [some 1, some 1, none, some 2]
    (fun b hb => ⟨["x"], rfl⟩)
  have hB := dedup_resolver_batching_fallback.2.1 wfetchB [7, 8] 503 (by decide)
    (by decide) (by decide) (by decide) (by decide)
  have hC := dedup_resolver_batching_fallback.2.2 wfetchC [3] 400 (by decide)
    (by decide) (by decide) (by decide) (by decide)
  refine ⟨⟨?_, hA.2⟩, ⟨?_, ?_, ?_⟩, hC.1, hC.2⟩
  · rw [hA.1]
    simp [dedupFirst, chunkList]
  · rw [hB.1]
    rfl
  · rw [hB.2.2]
    simp [fetchOk, wfetchB]
  · obtain ⟨ids, hres, hsub, hsrc⟩ := hB.2.1
    refine ⟨ids, hres, ?_⟩
    have := hsub 7 (by decide) ["a"] (by decide)
    exact this (by simp)

theorem uploadLoopGo_posts (formName today : String) (verbose : Bool)
    (statuses : Nat → Nat) (rows : List Row) (i : Nat) :
    (uploadLoopGo formName today verbose statuses rows i).posts =
      rows.map fun r => buildEventPayload r formName today := by
  induction rows generalizing i with
  | nil => rfl
  | cons r rest ih =>
    by_cases h : statuses i = 200 <;> simp [uploadLoopGo, h, ih]

theorem uploadLoopGo_count (formName today : String) (verbose : Bool)
    (statuses : Nat → Nat) (rows : List Row) (i : Nat) :
    (uploadLoopGo formName today verbose statuses rows i).count =
      ((List.range rows.length).filter fun j => statuses (i + j) = 200).length := by
  induction rows generalizing i with
  | nil => simp [uploadLoopGo]
  | cons r rest ih =>
    have hpred : ((fun j => decide (statuses (i + j) = 200)) ∘ Nat.succ)
        = fun j => decide (statuses (i + 1 + j) = 200) := by
      funext j
      simp only [Function.comp_apply]
      rw [show i + Nat.succ j = i + 1 + j from by omega]
    rw [List.length_cons, List.range_succ_eq_map, List.filter_cons]
    by_cases h : statuses i = 200
    · simp only [uploadLoopGo, if_pos h, ih (i + 1)]
      rw [if_pos (by simpa using h)]
      rw [List.filter_map, List.length_cons, List.length_map, hpred]
    · simp only [uploadLoopGo, if_neg h, ih (i + 1)]
      rw [if_neg (by simpa using h)]
      rw [List.filter_map, List.length_map, hpred]

/-- The branch structure of `upload_dataframe` once the required columns
are present, phrased through `survivingRows`. -/
theorem uploadDataframe_branches (df : DataFrame) (formName : String)
    (userMap : List ((String × String) × Int)) (existingIds : List Value)
    (statuses : Nat → Nat) (today : String)
    (hcols : requiredColumns.all (fun c => c ∈ df.cols) = true) :
    uploadDataframe df formName userMap existingIds statuses today true =
      (if df.rows.isEmpty then
        .ok { count := 0, log := [msgNoData], posts := [] }
      else if ((addUserIdColumn userMap df).rows.filter
          fun r => r.idx "user_id" ≠ .vNone).isEmpty then
        .ok { count := 0, log := [msgNoUsers], posts := [] }
      else if (survivingRows userMap existingIds df).isEmpty then
        .ok { count := 0, log := [msgAllExist], posts := [] }
      else
        (let t := uploadLoopGo formName today true statuses
          (survivingRows userMap existingIds df) 0
        .ok { t with
          log := t.log ++ ["Successfully uploaded " ++ toString t.count ++ " " ++
            formName ++ " events."] })) := by
  simp only [uploadDataframe, survivingRows, hcols, not_true, if_true, if_false]

theorem survivingRows_subset_shape (userMap : List ((String × String) × Int))
    (existingIds : List Value) (df : DataFrame)
    (hall : ∀ r ∈ df.rows, r.idx "ID" ∈ existingIds) :
    survivingRows userMap existingIds df = [] := by
  simp only [survivingRows, List.filter_eq_nil_iff]
  intro r2 hr2
  have hr2m := List.mem_of_mem_filter hr2
  simp only [addUserIdColumn, List.mem_map] at hr2m
  obtain ⟨r, hr, rfl⟩ := hr2m
  have hid := idx_setCell_ne r "ID" "user_id"
    (match alookup userMap ((r.idx "First Name").toStr, (r.idx "Last Name").toStr) with
      | some uid => Value.vInt uid
      | none => Value.vNone) (by decide)
  simp [hid, hall r hr]

/-- C1: when the dedup resolver reports every record's composite id as
already existing, `upload_dataframe` makes no upload call and returns 0 —
a second run over the same record set produces zero new destination
events. -/
theorem upload_idempotent_second_run (df : DataFrame) (formName : String)
    (userMap : List ((String × String) × Int)) (existingIds : List Value)
    (statuses : Nat → Nat) (today : String)
    (hcols : requiredColumns.all (fun c => c ∈ df.cols) = true)
    (hall : ∀ r ∈ df.rows, r.idx "ID" ∈ existingIds) :
    ∃ res, uploadDataframe df formName userMap existingIds statuses today true =
      .ok res ∧ res.posts = [] ∧ res.count = 0 := by
  rw [uploadDataframe_branches df formName userMap existingIds statuses today hcols]
  by_cases h1 : df.rows.isEmpty
  · rw [if_pos h1]
    exact ⟨_, rfl, rfl, rfl⟩
  · rw [if_neg h1]
    by_cases h2 : ((addUserIdColumn userMap df).rows.filter
        fun r => r.idx "user_id" ≠ .vNone).isEmpty
    · rw [if_pos h2]
      exact ⟨_, rfl, rfl, rfl⟩
    · rw [if_neg h2,
        if_pos (by simp [survivingRows_subset_shape userMap existingIds df hall])]
      exact ⟨_, rfl, rfl, rfl⟩

theorem upload_idempotent_second_run_witness :
    ∃ res, uploadDataframe
      ⟨["First Name", "Last Name", "ID"],
        [[("First Name", .vStr "Ann"), ("Last Name", .vStr "Lee"),
          ("ID", .vStr "M1-1")]]⟩
      "Firstbeat Summary Stats" [(("Ann", "Lee"), 9)] [.vStr "M1-1"]
      (fun _ => 200) "01/01/2024" true = .ok res ∧ res.posts = [] ∧ res.count = 0 :=
  upload_idempotent_second_run _ _ _ _ _ _ (by decide) (by decide)

/-- C2 counterexample: for one surviving record and the response sequence
[503, 200, ...], the upload loop issues exactly one POST and counts 0
successes, whereas a POST issued through the module's retry policy
(`_post_with_retries`, §4.2) would retry the 503, reach the 200 on the
second request and succeed — so the uploader does not POST with the retry
policy the claim states. -/
theorem upload_no_retry_cex :
    (uploadDataframe
      ⟨["First Name", "Last Name", "ID"],
        [[("First Name", .vStr "Ann"), ("Last Name", .vStr "Lee"),
          ("ID", .vStr "M1-1")]]⟩
      "F" [(("Ann", "Lee"), 9)] [] (fun i => if i = 0 then 503 else 200) "d"
      true).toOption.map (fun res => (res.count, res.posts.length)) = some (0, 1) ∧
    specRetryFinalStatus (fun i => if i = 0 then 503 else 200) 0 = (200, 2) ∧
    (0 : Nat) ≠ 1 :=
  ⟨by decide, by decide, by decide⟩

/-- C2 (amended): for every record that survives filtering the uploader
builds the payload from the fixed allow-list of stringified fields and
issues exactly one plain POST (no retry); it counts exactly the 200
responses as successes and on any other status logs and continues, so a
per-record failure never aborts the batch: every surviving record is
POSTed and the returned count is the number of 200 responses. -/
theorem upload_counts_200s_and_never_aborts (df : DataFrame) (formName : String)
    (userMap : List ((String × String) × Int)) (existingIds : List Value)
    (statuses : Nat → Nat) (today : String)
    (hcols : requiredColumns.all (fun c => c ∈ df.cols) = true) :
    ∃ res, uploadDataframe df formName userMap existingIds statuses today true =
      .ok res ∧
      res.posts = (survivingRows userMap existingIds df).map
        (fun r => buildEventPayload r formName today) ∧
      res.count = ((List.range (survivingRows userMap existingIds df).length).filter
        fun j => statuses j = 200).length ∧
      (∀ r, (buildEventPayload r formName today).pairs =
        pairKeys.map fun k => (k, (r.pyGet k (.vStr "")).toStr)) := by
  have hcount := uploadLoopGo_count formName today true statuses
    (survivingRows userMap existingIds df) 0
  simp only [Nat.zero_add] at hcount
  rw [uploadDataframe_branches df formName userMap existingIds statuses today hcols]
  by_cases h1 : df.rows.isEmpty
  · have hsurv : survivingRows userMap existingIds df = [] := by
      have hnil : df.rows = [] := by simpa using h1
      simp [survivingRows, addUserIdColumn, hnil]
    rw [if_pos h1]
    exact ⟨_, rfl, by simp [hsurv], by simp [hsurv], fun r => rfl⟩
  · rw [if_neg h1]
    by_cases h2 : ((addUserIdColumn userMap df).rows.filter
        fun r => r.idx "user_id" ≠ .vNone).isEmpty
    · have hsurv : survivingRows userMap existingIds df = [] := by
        have hnil : (addUserIdColumn userMap df).rows.filter
            (fun r => r.idx "user_id" ≠ .vNone) = [] := by simpa using h2
        rw [survivingRows, hnil]
        rfl
      rw [if_pos h2]
      exact ⟨_, rfl, by simp [hsurv], by simp [hsurv], fun r => rfl⟩
    · rw [if_neg h2]
      by_cases h3 : (survivingRows userMap existingIds df).isEmpty
      · have hsurv : survivingRows userMap existingIds df = [] := by simpa using h3
        rw [if_pos h3]
        exact ⟨_, rfl, by simp [hsurv], by simp [hsurv], fun r => rfl⟩
      · rw [if_neg h3]
        refine ⟨_, rfl, ?_, ?_, fun r => rfl⟩
        · exact uploadLoopGo_posts formName today true statuses _ 0
        · exact hcount

theorem upload_counts_200s_witness :
    ∃ res, uploadDataframe
      ⟨["First Name", "Last Name", "ID"],
        [[("First Name", .vStr "Ann"), ("Last Name", .vStr "Lee"),
          ("ID", .vStr "M1-1")],
         [("First Name", .vStr "Bob"), ("Last Name", .vStr "Onk"),
          ("ID", .vStr "M2-2")]]⟩
      "F" [(("Ann", "Lee"), 9), (("Bob", "Onk"), 10)] []
      (fun i => if i = 0 then 503 else 200) "d" true = .ok res ∧
      res.posts = (survivingRows [(("Ann", "Lee"), 9), (("Bob", "Onk"), 10)] []
        ⟨["First Name", "Last Name", "ID"],
          [[("First Name", .vStr "Ann"), ("Last Name", .vStr "Lee"),
            ("ID", .vStr "M1-1")],
           [("First Name", .vStr "Bob"), ("Last Name", .vStr "Onk"),
            ("ID", .vStr "M2-2")]]⟩).map (fun r => buildEventPayload r "F" "d") ∧
      res.count = ((List.range (survivingRows [(("Ann", "Lee"), 9), (("Bob", "Onk"), 10)] []
        ⟨["First Name", "Last Name", "ID"],
          [[("First Name", .vStr "Ann"), ("Last Name", .vStr "Lee"),
            ("ID", .vStr "M1-1")],
           [("First Name", .vStr "Bob"), ("Last Name", .vStr "Onk"),
            ("ID", .vStr "M2-2")]]⟩).length).filter
        fun j => (if j = 0 then 503 else 200) = 200).length ∧
      (∀ r, (buildEventPayload r "F" "d").pairs =
        pairKeys.map fun k => (k, (r.pyGet k (.vStr "")).toStr)) :=
  upload_counts_200s_and_never_aborts _ "F" _ _ _ "d" (by decide)

/-- C7: with the default verbose logging, the three empty-input cases each
short-circuit with a 0 count and no POSTs, and each prints its own message;
the three messages are pairwise distinct. -/
theorem upload_three_empty_paths (df : DataFrame) (formName : String)
    (userMap : List ((String × String) × Int)) (existingIds : List Value)
    (statuses : Nat → Nat) (today : String)
    (hcols : requiredColumns.all (fun c => c ∈ df.cols) = true) :
    (df.rows = [] →
      uploadDataframe df formName userMap existingIds statuses today true =
        .ok { count := 0, log := [msgNoData], posts := [] }) ∧
    (df.rows ≠ [] →
      (∀ r ∈ df.rows,
        alookup userMap ((r.idx "First Name").toStr, (r.idx "Last Name").toStr) = none) →
      uploadDataframe df formName userMap existingIds statuses today true =
        .ok { count := 0, log := [msgNoUsers], posts := [] }) ∧
    (df.rows ≠ [] →
      (∀ r ∈ df.rows,
        alookup userMap ((r.idx "First Name").toStr, (r.idx "Last Name").toStr) ≠ none) →
      (∀ r ∈ df.rows, r.idx "ID" ∈ existingIds) →
      uploadDataframe df formName userMap existingIds statuses today true =
        .ok { count := 0, log := [msgAllExist], posts := [] }) ∧
    msgNoData ≠ msgNoUsers ∧ msgNoData ≠ msgAllExist ∧ msgNoUsers ≠ msgAllExist := by
  refine ⟨?_, ?_, ?_, by decide, by decide, by decide⟩
  · intro hnil
    rw [uploadDataframe_branches df formName userMap existingIds statuses today hcols]
    rw [if_pos (by simp [hnil])]
  · intro hne hunmapped
    rw [uploadDataframe_branches df formName userMap existingIds statuses today hcols]
    rw [if_neg (by simp [hne])]
    rw [if_pos ?_]
    simp only [List.isEmpty_iff, List.filter_eq_nil_iff]
    intro r2 hr2
    simp only [addUserIdColumn, List.mem_map] at hr2
    obtain ⟨r, hr, rfl⟩ := hr2
    rw [hunmapped r hr]
    simp [idx_setCell_eq]
  · intro hne hmapped hall
    rw [uploadDataframe_branches df formName userMap existingIds statuses today hcols]
    rw [if_neg (by simp [hne])]
    obtain ⟨r0, rest, hrows⟩ : ∃ r0 rest, df.rows = r0 :: rest := by
      cases hr : df.rows with
      | nil => exact absurd hr hne
      | cons a l => exact ⟨a, l, rfl⟩
    have hm := hmapped r0 (by rw [hrows]; simp)
    obtain ⟨uid, huid⟩ := Option.ne_none_iff_exists.mp hm
    rw [if_neg ?_]
    · rw [if_pos (by simp [survivingRows_subset_shape userMap existingIds df hall])]
    · simp only [List.isEmpty_iff, List.filter_eq_nil_iff]
      intro hforall
      apply hforall (r0.setCell "user_id" (Value.vInt uid))
      · simp only [addUserIdColumn, List.mem_map]
        refine ⟨r0, by rw [hrows]; simp, ?_⟩
        rw [← huid]
      · simp [idx_setCell_eq]

theorem upload_three_empty_paths_witness :
    (uploadDataframe ⟨["First Name", "Last Name", "ID"], []⟩
      "F" [] [] (fun _ => 200) "d" true =
        .ok { count := 0, log := [msgNoData], posts := [] }) ∧
    (uploadDataframe
      ⟨["First Name", "Last Name", "ID"],
        [[("First Name", .vStr "Bob"), ("Last Name", .vStr "Ray"),
          ("ID", .vStr "z")]]⟩
      "F" [] [] (fun _ => 200) "d" true =
        .ok { count := 0, log := [msgNoUsers], posts := [] }) ∧
    (uploadDataframe
      ⟨["First Name", "Last Name", "ID"],
        [[("First Name", .vStr "Ann"), ("Last Name", .vStr "Lee"),
          ("ID", .vStr "M1-1")]]⟩
      "F" [(("Ann", "Lee"), 9)] [.vStr "M1-1"] (fun _ => 200) "d" true =
        .ok { count := 0, log := [msgAllExist], posts := [] }) ∧
    msgNoData ≠ msgNoUsers ∧ msgNoData ≠ msgAllExist ∧ msgNoUsers ≠ msgAllExist := by
  refine ⟨?_, ?_, ?_, ?_, ?_, ?_⟩
  · exact (upload_three_empty_paths _ "F" [] [] (fun _ => 200) "d" (by decide)).1 rfl
  · exact (upload_three_empty_paths _ "F" [] [] (fun _ => 200) "d" (by decide)).2.1
      (by decide) (by intro r hr; fin_cases hr; decide)
  · exact (upload_three_empty_paths _ "F" [(("Ann", "Lee"), 9)] [.vStr "M1-1"]
      (fun _ => 200) "d" (by decide)).2.2.1 (by decide)
      (by intro r hr; fin_cases hr; decide) (by intro r hr; fin_cases hr; decide)
  · exact (upload_three_empty_paths ⟨["First Name", "Last Name", "ID"], []⟩ "F" [] []
      (fun _ => 200) "d" (by decide)).2.2.2.1
  · exact (upload_three_empty_paths ⟨["First Name", "Last Name", "ID"], []⟩ "F" [] []
      (fun _ => 200) "d" (by decide)).2.2.2.2.1
  · exact (upload_three_empty_paths ⟨["First Name", "Last Name", "ID"], []⟩ "F" [] []
      (fun _ => 200) "d" (by decide)).2.2.2.2.2

/-- C10: `upload_dataframe` never mutates the caller's DataFrame object:
the local `df` is rebound to a copy before the `user_id` column assignment
and the row filters rebind it to fresh objects, so after the call the
caller's DataFrame has exactly the rows and columns it had before. -/
theorem upload_does_not_mutate_caller (df0 : DataFrame) (formName : String)
    (userMap : List ((String × String) × Int)) (existingIds : List Value)
    (statuses : Nat → Nat) (today : String) (verbose : Bool) :
    (uploadDataframeState df0 formName userMap existingIds statuses today
      verbose).2 = df0 ∧
    (uploadDataframeState df0 formName userMap existingIds statuses today
      verbose).2.rows = df0.rows ∧
    (uploadDataframeState df0 formName userMap existingIds statuses today
      verbose).2.cols = df0.cols := by
  have h : (uploadDataframeState df0 formName userMap existingIds statuses today
      verbose).2 = df0 := by
    simp only [uploadDataframeState, setUserIdCol, readDf]
    split_ifs <;> rfl
  exact ⟨h, by rw [h], by rw [h]⟩
